import Mathlib

/-!
Shallow embedding of the Context Completion and Scoring Engine of
`cth-analysis-module.js` (CTHmodules repository).

JavaScript numbers are modelled as exact rationals (ℚ).  A JavaScript value
that is `undefined`, `null`, or not a number is modelled as `Option.none`;
a genuine numeric value `v` is `Option.some v`.  The indicator record of a
phase is modelled as a total function from the nine fixed indicator names to
`Option ℚ` (a name absent from the JS object is `none`).  The `isNaN` /
`typeof` guards of the source are subsumed by this `Option` layer, because
`ℚ` has no NaN.
-/

/-- The nine fixed indicator names of `INDICATOR_LIMITS` /
`allIndicatorNames` in the source. -/
inductive IndicatorName where
  | gdpPerCapita
  | giniIndex
  | politicalEventsCount
  | averageIncome
  | literacyRate
  | lifeExpectancy
  | birthRate
  | populationDensity
  | urbanizationRate
  deriving DecidableEq

/-- The list `allIndicatorNames` of `completeAndInferHistoricalData`. -/
def allIndicatorNames : List IndicatorName :=
  [IndicatorName.gdpPerCapita, IndicatorName.giniIndex,
   IndicatorName.politicalEventsCount, IndicatorName.averageIncome,
   IndicatorName.literacyRate, IndicatorName.lifeExpectancy,
   IndicatorName.birthRate, IndicatorName.populationDensity,
   IndicatorName.urbanizationRate]

/-- A phase's indicator record: each of the nine names maps to a numeric
value (`some v`) or is missing (`none`). -/
abbrev Indicators : Type := IndicatorName → Option ℚ

/-- An entry of `INDICATOR_LIMITS`: `{ min: ..., max: ... }`. -/
structure Limits where
  min : ℚ
  max : ℚ

/-- `INDICATOR_LIMITS` from the source. -/
def INDICATOR_LIMITS : IndicatorName → Limits
  | IndicatorName.gdpPerCapita => ⟨500, 30000⟩
  | IndicatorName.giniIndex => ⟨0.2, 0.7⟩
  | IndicatorName.politicalEventsCount => ⟨0, 15⟩
  | IndicatorName.averageIncome => ⟨100, 15000⟩
  | IndicatorName.literacyRate => ⟨0.05, 1⟩
  | IndicatorName.lifeExpectancy => ⟨25, 85⟩
  | IndicatorName.birthRate => ⟨0.005, 0.06⟩
  | IndicatorName.populationDensity => ⟨1, 2000⟩
  | IndicatorName.urbanizationRate => ⟨0.05, 1⟩

/-- The weight record `{ w_e, w_s, w_a, w_p }`. -/
structure Weights where
  w_e : ℚ
  w_s : ℚ
  w_a : ℚ
  w_p : ℚ

/-- `DEFAULT_CTH_WEIGHTS` from the source. -/
def DEFAULT_CTH_WEIGHTS : Weights := ⟨0.4, 0.3, 0.15, 0.15⟩

/-- A total indicator snapshot, as carried by each epoch reference entry
(every epoch record of the source supplies all nine indicators). -/
abbrev EpochSnapshot : Type := IndicatorName → ℚ

/-- One entry of `EPOCH_DATA_REFERENCE`: a year interval plus a snapshot
(the source stores the nine indicator fields next to `startYear`/`endYear`;
`getEpochDataForYear` destructures the years away). -/
structure EpochEntry where
  startYear : ℚ
  endYear : ℚ
  indicators : EpochSnapshot

/-- Snapshot of the `antiquity` epoch. -/
def antiquityData : EpochSnapshot
  | IndicatorName.gdpPerCapita => 700
  | IndicatorName.giniIndex => 0.6
  | IndicatorName.politicalEventsCount => 5
  | IndicatorName.averageIncome => 100
  | IndicatorName.literacyRate => 0.1
  | IndicatorName.lifeExpectancy => 30
  | IndicatorName.birthRate => 0.04
  | IndicatorName.populationDensity => 5
  | IndicatorName.urbanizationRate => 0.1

/-- Snapshot of the `middleAges` epoch. -/
def middleAgesData : EpochSnapshot
  | IndicatorName.gdpPerCapita => 900
  | IndicatorName.giniIndex => 0.55
  | IndicatorName.politicalEventsCount => 7
  | IndicatorName.averageIncome => 200
  | IndicatorName.literacyRate => 0.15
  | IndicatorName.lifeExpectancy => 35
  | IndicatorName.birthRate => 0.035
  | IndicatorName.populationDensity => 10
  | IndicatorName.urbanizationRate => 0.15

/-- Snapshot of the `earlyModern` epoch. -/
def earlyModernData : EpochSnapshot
  | IndicatorName.gdpPerCapita => 1500
  | IndicatorName.giniIndex => 0.5
  | IndicatorName.politicalEventsCount => 8
  | IndicatorName.averageIncome => 300
  | IndicatorName.literacyRate => 0.25
  | IndicatorName.lifeExpectancy => 40
  | IndicatorName.birthRate => 0.03
  | IndicatorName.populationDensity => 20
  | IndicatorName.urbanizationRate => 0.25

/-- Snapshot of the `industrialRevolution` epoch. -/
def industrialRevolutionData : EpochSnapshot
  | IndicatorName.gdpPerCapita => 3000
  | IndicatorName.giniIndex => 0.48
  | IndicatorName.politicalEventsCount => 10
  | IndicatorName.averageIncome => 600
  | IndicatorName.literacyRate => 0.4
  | IndicatorName.lifeExpectancy => 45
  | IndicatorName.birthRate => 0.025
  | IndicatorName.populationDensity => 50
  | IndicatorName.urbanizationRate => 0.4

/-- Snapshot of the `20thCenturyEarly` epoch. -/
def centuryEarly20Data : EpochSnapshot
  | IndicatorName.gdpPerCapita => 7000
  | IndicatorName.giniIndex => 0.45
  | IndicatorName.politicalEventsCount => 12
  | IndicatorName.averageIncome => 1500
  | IndicatorName.literacyRate => 0.7
  | IndicatorName.lifeExpectancy => 55
  | IndicatorName.birthRate => 0.02
  | IndicatorName.populationDensity => 100
  | IndicatorName.urbanizationRate => 0.6

/-- Snapshot of the `20thCenturyLate` epoch. -/
def centuryLate20Data : EpochSnapshot
  | IndicatorName.gdpPerCapita => 15000
  | IndicatorName.giniIndex => 0.4
  | IndicatorName.politicalEventsCount => 10
  | IndicatorName.averageIncome => 4000
  | IndicatorName.literacyRate => 0.85
  | IndicatorName.lifeExpectancy => 70
  | IndicatorName.birthRate => 0.015
  | IndicatorName.populationDensity => 200
  | IndicatorName.urbanizationRate => 0.75

/-- Snapshot of the `contemporary` epoch. -/
def contemporaryData : EpochSnapshot
  | IndicatorName.gdpPerCapita => 25000
  | IndicatorName.giniIndex => 0.35
  | IndicatorName.politicalEventsCount => 8
  | IndicatorName.averageIncome => 8000
  | IndicatorName.literacyRate => 0.95
  | IndicatorName.lifeExpectancy => 78
  | IndicatorName.birthRate => 0.01
  | IndicatorName.populationDensity => 300
  | IndicatorName.urbanizationRate => 0.85

/-- `EPOCH_DATA_REFERENCE`, in the source's key insertion order (the order
the `for...in` loop of `getEpochDataForYear` visits). -/
def EPOCH_DATA_REFERENCE : List EpochEntry :=
  [⟨-3000, 500, antiquityData⟩,
   ⟨501, 1500, middleAgesData⟩,
   ⟨1501, 1800, earlyModernData⟩,
   ⟨1801, 1900, industrialRevolutionData⟩,
   ⟨1901, 1950, centuryEarly20Data⟩,
   ⟨1951, 2000, centuryLate20Data⟩,
   ⟨2001, 2025, contemporaryData⟩]

/-- The hardcoded fallback snapshot returned by `getEpochDataForYear` when
no epoch interval contains the year. -/
def fallbackEpochData : EpochSnapshot
  | IndicatorName.gdpPerCapita => 10000
  | IndicatorName.giniIndex => 0.45
  | IndicatorName.politicalEventsCount => 8
  | IndicatorName.averageIncome => 3000
  | IndicatorName.literacyRate => 0.7
  | IndicatorName.lifeExpectancy => 60
  | IndicatorName.birthRate => 0.02
  | IndicatorName.populationDensity => 100
  | IndicatorName.urbanizationRate => 0.5

/-- The scan loop of `getEpochDataForYear`: return the snapshot of the
first entry whose interval contains the year. -/
def epochScan (year : ℚ) : List EpochEntry → EpochSnapshot
  | [] => fallbackEpochData
  | e :: rest =>
    if e.startYear ≤ year ∧ year ≤ e.endYear then e.indicators
    else epochScan year rest

/-- `getEpochDataForYear` from the source. -/
def getEpochDataForYear (year : ℚ) : EpochSnapshot :=
  epochScan year EPOCH_DATA_REFERENCE

/-- `normalizeIndicator(value, min, max)` from the source.  The
`undefined`/`null`/non-number/NaN guard is the `none` branch.  Note the
source returns 0 (not 0.5) in the degenerate `max - min === 0` case. -/
def normalizeIndicator (value : Option ℚ) (mn mx : ℚ) : ℚ :=
  match value with
  | none => 0
  | some v =>
    let clampedValue := max mn (min mx v)
    if mx - mn = 0 then 0 else (clampedValue - mn) / (mx - mn)

/-- `applyLimits(indicatorName, value)` from the source.  For the nine
modelled names the `INDICATOR_LIMITS` lookup always succeeds, and a
modelled value is always a genuine number, so the clamping branch is the
only reachable one. -/
def applyLimits (indicatorName : IndicatorName) (value : ℚ) : ℚ :=
  let limits := INDICATOR_LIMITS indicatorName
  max limits.min (min limits.max value)

/-- Normalized value of one indicator of a record, with its own limits:
the `normalizeIndicator(indicators.X, INDICATOR_LIMITS.X.min,
INDICATOR_LIMITS.X.max)` pattern of `calculateCTHFromIndicators`. -/
def normOf (indicators : Indicators) (n : IndicatorName) : ℚ :=
  normalizeIndicator (indicators n) (INDICATOR_LIMITS n).min (INDICATOR_LIMITS n).max

/-- Per-dimension averaging of `calculateCTHFromIndicators`:
`values.length > 0 ? sum / length : 0`.  The source first filters out
non-number elements, but `normalizeIndicator` always returns a genuine
number, so in the model the filter keeps every element and is omitted. -/
def dimensionAverage (values : List ℚ) : ℚ :=
  if 0 < values.length then values.sum / (values.length : ℚ) else 0

/-- The final combination step of `calculateCTHFromIndicators` (the
`computeScore` contract of the specification): weighted sum over the four
dimension values, divided by the total weight when positive, then clamped
to [0,1]. -/
def computeScore (E_val S_val A_val P_val : ℚ) (w : Weights) : ℚ :=
  let weightedSum := w.w_e * E_val + w.w_s * S_val + w.w_a * A_val + w.w_p * P_val
  let totalWeight := w.w_e + w.w_s + w.w_a + w.w_p
  let cth := if 0 < totalWeight then weightedSum / totalWeight else 0
  max 0 (min 1 cth)

/-- `calculateCTHFromIndicators(indicators, customWeights)` from the
source.  In the model `indicators` is always a record, so the
not-an-object early return is unreachable and omitted. -/
def calculateCTHFromIndicators (indicators : Indicators) (customWeights : Option Weights) : ℚ :=
  let w := customWeights.getD DEFAULT_CTH_WEIGHTS
  let E_val := dimensionAverage
    [normOf indicators IndicatorName.gdpPerCapita,
     normOf indicators IndicatorName.giniIndex,
     normOf indicators IndicatorName.politicalEventsCount]
  let S_val := dimensionAverage
    [normOf indicators IndicatorName.averageIncome,
     normOf indicators IndicatorName.literacyRate]
  let A_val := dimensionAverage
    [normOf indicators IndicatorName.lifeExpectancy,
     normOf indicators IndicatorName.birthRate]
  let P_val := dimensionAverage
    [normOf indicators IndicatorName.populationDensity,
     normOf indicators IndicatorName.urbanizationRate]
  computeScore E_val S_val A_val P_val w

/-- The `direction` string argument of `estimateIndicatorValue`. -/
inductive InferDirection where
  | forward
  | backward
  deriving DecidableEq

/-- `estimateIndicatorValue` from the source (the NaN/typeof guards are
subsumed by ℚ; the `knownValue < 0` and `trendRelation < 0` guards are
kept). -/
def estimateIndicatorValue (knownValue deltaCTHPercentage trendRelation : ℚ)
    (direction : InferDirection) : ℚ :=
  if knownValue < 0 then 0
  else
    let trend := if trendRelation < 0 then 1 else trendRelation
    let estimatedChangeFactor := deltaCTHPercentage * trend
    match direction with
    | InferDirection.forward => knownValue * (1 + estimatedChangeFactor)
    | InferDirection.backward =>
      if 1 + estimatedChangeFactor = 0 then knownValue
      else knownValue / (1 + estimatedChangeFactor)

/-- `calculatePercentageChange(val1, val2)` from the source (invalid
arguments are impossible in the model; the `val1 === 0` guard is kept). -/
def calculatePercentageChange (val1 val2 : ℚ) : ℚ :=
  if val1 = 0 then 0 else (val2 - val1) / val1

/-- The five temporal phases, in the order of the `periods` array. -/
inductive Period where
  | before
  | prelude
  | during
  | transition
  | after
  deriving DecidableEq

/-- The `periods` array of `completeAndInferHistoricalData`. -/
def periods : List Period :=
  [Period.before, Period.prelude, Period.during, Period.transition, Period.after]

/-- `periods[i-1]` for the phase at position `i` (`undefined` at the first
phase). -/
def prevPeriod : Period → Option Period
  | Period.before => none
  | Period.prelude => some Period.before
  | Period.during => some Period.prelude
  | Period.transition => some Period.during
  | Period.after => some Period.transition

/-- `periods[i+1]` for the phase at position `i` (`undefined` at the last
phase). -/
def nextPeriod : Period → Option Period
  | Period.before => some Period.prelude
  | Period.prelude => some Period.during
  | Period.during => some Period.transition
  | Period.transition => some Period.after
  | Period.after => none

/-- One phase record of `temporalData`: the `indicators` sub-object and the
`cth` field (absent before the pipeline first writes it). -/
@[ext]
structure PhaseData where
  indicators : Indicators
  cth : Option ℚ

/-- The `temporalData` record: one `PhaseData` per phase. -/
abbrev TemporalData : Type := Period → PhaseData

/-- The representative year chosen for each phase in Step 1 of
`completeAndInferHistoricalData`. -/
def periodYear (eventStartYear eventEndYear : ℚ) : Period → ℚ
  | Period.before => eventStartYear - 12
  | Period.prelude => eventStartYear - 1
  | Period.during => ((⌊(eventStartYear + eventEndYear) / 2⌋ : ℤ) : ℚ)
  | Period.transition => eventEndYear + 1
  | Period.after => eventEndYear + 12

/-- The inner loop of Step 1: fill every `undefined`/`null` indicator of a
phase with the epoch reference value. -/
def fillMissingFromEpoch (ind : Indicators) (epochData : EpochSnapshot) : Indicators :=
  fun n =>
    match ind n with
    | none => some (epochData n)
    | some v => some v

/-- Step 1 of `completeAndInferHistoricalData`: seed every phase's missing
indicators from the epoch reference for its representative year. -/
def seedStage (td : TemporalData) (eventStartYear eventEndYear : ℚ) : TemporalData :=
  fun p =>
    { td p with
      indicators := fillMissingFromEpoch (td p).indicators
        (getEpochDataForYear (periodYear eventStartYear eventEndYear p)) }

/-- Steps 2 and 5 of `completeAndInferHistoricalData`: store the CTH of
every phase computed from its current indicators (default weights). -/
def scoreStage (td : TemporalData) : TemporalData :=
  fun p => { td p with cth := some (calculateCTHFromIndicators (td p).indicators none) }

/-- The `deltaCTHs` table: percentage change of CTH between a phase and its
successor (0 when either CTH is still missing, per the `!== undefined`
guard). -/
def deltaCTHAfter (td : TemporalData) (p : Period) : ℚ :=
  match nextPeriod p with
  | none => 0
  | some q =>
    match (td p).cth, (td q).cth with
    | some a, some b => calculatePercentageChange a b
    | _, _ => 0

/-- The inner body of Step 3 for one phase and one indicator: if the slot
is still missing, try interpolation, then forward extrapolation, then
backward extrapolation, clamping any inferred value; otherwise leave the
slot as it is. -/
def inferIndicator (deltas : Period → ℚ) (td : TemporalData) (p : Period)
    (n : IndicatorName) : Option ℚ :=
  match (td p).indicators n with
  | some v => some v
  | none =>
    let prevVal : Option ℚ :=
      match prevPeriod p with
      | some pp => (td pp).indicators n
      | none => none
    let nextVal : Option ℚ :=
      match nextPeriod p with
      | some np => (td np).indicators n
      | none => none
    let inferredValue : Option ℚ :=
      match prevVal, nextVal with
      | some a, some b => some ((a + b) / 2)
      | some a, none =>
        match prevPeriod p with
        | some pp =>
          if deltas pp ≠ 0 then
            some (estimateIndicatorValue a (deltas pp) 1 InferDirection.forward)
          else none
        | none => none
      | none, some b =>
        if deltas p ≠ 0 then
          some (estimateIndicatorValue b (deltas p) 1 InferDirection.backward)
        else none
      | none, none => none
    match inferredValue with
    | some v => some (applyLimits n v)
    | none => none

/-- Step 3, one phase of one pass: rewrite the phase's indicator record
through `inferIndicator` (phases later in the pass see the updates of
earlier ones, as in the source's in-place loop). -/
def inferPeriodStep (deltas : Period → ℚ) (td : TemporalData) (p : Period) : TemporalData :=
  fun q =>
    if q = p then { td p with indicators := fun n => inferIndicator deltas td p n }
    else td q

/-- Step 3 of `completeAndInferHistoricalData`: `maxInferencePasses = 3`
passes over the phases in order. -/
def inferenceStage (deltas : Period → ℚ) (td : TemporalData) : TemporalData :=
  (List.range 3).foldl (fun acc _ => periods.foldl (inferPeriodStep deltas) acc) td

/-- Step 4 of `completeAndInferHistoricalData`: clamp every defined
indicator of every phase to its limits. -/
def clampStage (td : TemporalData) : TemporalData :=
  fun p =>
    { td p with indicators := fun n => ((td p).indicators n).map (applyLimits n) }

/-- `completeAndInferHistoricalData(temporalData, eventStartYear,
eventEndYear)` from the source: seed, provisional scores, delta table,
three inference passes, clamping, final scores.  The ensure-structure loop
before Step 1 is subsumed by the types.  In the model the data flows
functionally instead of through in-place mutation. -/
def completeAndInferHistoricalData (td : TemporalData)
    (eventStartYear eventEndYear : ℚ) : TemporalData :=
  let td1 := seedStage td eventStartYear eventEndYear
  let td2 := scoreStage td1
  let deltas := deltaCTHAfter td2
  let td3 := inferenceStage deltas td2
  let td4 := clampStage td3
  scoreStage td4

/-- The caller-facing `initialHistoricalData` argument: each phase wrapper
(and its `indicators` object) may be absent. -/
abbrev InitialData : Type := Period → Option Indicators

/-- The copy step of `analyzeEventCTH`: a fresh `temporalData` whose
indicator records shallow-copy the caller's (`{}` when absent), with no
`cth` yet. -/
def initialTemporalData (d : InitialData) : TemporalData :=
  fun p => { indicators := (d p).getD (fun _ => none), cth := none }

/-- `analyzeEventCTH(eventStartYear, eventEndYear, initialHistoricalData)`
from the source.  `none` for a year models a non-numeric or NaN year;
`none` for the data models a missing or non-record argument; the `null`
sentinel of the source is the `none` result. -/
def analyzeEventCTH (eventStartYear eventEndYear : Option ℚ)
    (initialHistoricalData : Option InitialData) : Option TemporalData :=
  match eventStartYear, eventEndYear with
  | some s, some e =>
    if s > e then none
    else
      match initialHistoricalData with
      | some d => some (completeAndInferHistoricalData (initialTemporalData d) s e)
      | none => none
  | _, _ => none

/-!
Heap-level embedding, for the frame property of `analyzeEventCTH`.

In JavaScript the mutable cells reachable from the caller's
`initialHistoricalData` are the per-phase `indicators` objects (indicator
values themselves are immutable number primitives, and the phase wrappers
are read, never written).  The heap is therefore modelled as a list of
indicator records, addressed by position; `temporalData[period].indicators`
is a heap cell, and every in-place indicator assignment of the source is a
`writeH` to that cell.  The `cth` fields live on the wrapper objects that
`analyzeEventCTH` itself freshly allocates, so they are carried as a plain
function beside the heap.
-/

/-- The object heap: indicator records addressed by list position. -/
abbrev Heap : Type := List Indicators

/-- Read the indicator record at an address (an absent address reads as an
empty record; the pipeline only uses valid addresses). -/
def readH (h : Heap) (a : Nat) : Indicators :=
  h.getD a (fun _ => none)

/-- In-place update of the indicator record at an address. -/
def writeH (h : Heap) (a : Nat) (ind : Indicators) : Heap :=
  h.set a ind

/-- Position of each phase in the `periods` array. -/
def periodIndex : Period → Nat
  | Period.before => 0
  | Period.prelude => 1
  | Period.during => 2
  | Period.transition => 3
  | Period.after => 4

/-- View of the heap as a `temporalData` record for the given per-phase
addresses (with no `cth`, which `inferIndicator` never reads). -/
def heapTemporalData (h : Heap) (addrs : Period → Nat) : TemporalData :=
  fun p => { indicators := readH h (addrs p), cth := none }

/-- Heap-level Step 1: seed every phase's record in place. -/
def seedStageHeap (h : Heap) (addrs : Period → Nat)
    (eventStartYear eventEndYear : ℚ) : Heap :=
  periods.foldl
    (fun acc p =>
      writeH acc (addrs p)
        (fillMissingFromEpoch (readH acc (addrs p))
          (getEpochDataForYear (periodYear eventStartYear eventEndYear p))))
    h

/-- Heap-level Steps 2 and 5: the per-phase CTH values for the current
heap contents (written to the freshly allocated wrapper objects, which are
outside the modelled heap). -/
def heapScores (h : Heap) (addrs : Period → Nat) : Period → ℚ :=
  fun p => calculateCTHFromIndicators (readH h (addrs p)) none

/-- Heap-level Step 3: three in-place inference passes over the phases in
order, each reading the current heap through `heapTemporalData`. -/
def inferenceStageHeap (deltas : Period → ℚ) (h : Heap) (addrs : Period → Nat) : Heap :=
  (List.range 3).foldl
    (fun acc _ =>
      periods.foldl
        (fun acc2 p =>
          writeH acc2 (addrs p)
            (fun n => inferIndicator deltas (heapTemporalData acc2 addrs) p n))
        acc)
    h

/-- Heap-level Step 4: clamp every phase's record in place. -/
def clampStageHeap (h : Heap) (addrs : Period → Nat) : Heap :=
  periods.foldl
    (fun acc p =>
      writeH acc (addrs p) (fun n => (readH acc (addrs p) n).map (applyLimits n)))
    h

/-- Heap-level `completeAndInferHistoricalData`: mutates only the five
addressed records and returns the final heap.  The provisional and final
per-phase CTHs (Steps 2 and 5) are written to the freshly allocated phase
wrapper objects, which are outside the modelled heap; they are recoverable
as `heapScores` of the corresponding heap state. -/
def completeAndInferHeap (h : Heap) (addrs : Period → Nat)
    (eventStartYear eventEndYear : ℚ) : Heap :=
  let h1 := seedStageHeap h addrs eventStartYear eventEndYear
  let cths1 := heapScores h1 addrs
  let deltas := fun p =>
    match nextPeriod p with
    | none => 0
    | some q => calculatePercentageChange (cths1 p) (cths1 q)
  let h3 := inferenceStageHeap deltas h1 addrs
  clampStageHeap h3 addrs

/-- The shallow copy `{...initialHistoricalData.phase.indicators}` of one
phase (an empty fresh record when the phase or its record is absent). -/
def copyIndicators (h : Heap) (inAddrs : Period → Option Nat) (p : Period) : Indicators :=
  match inAddrs p with
  | some a => readH h a
  | none => fun _ => none

/-- Heap-level `analyzeEventCTH` (after its input validation, which
performs no mutation): shallow-copy the caller's records — addressed by
`inAddrs`, `none` for an absent phase — into five freshly allocated cells,
then run the pipeline on those cells.  Returns the final heap, the
addresses of the result records, and the final scores. -/
def analyzeEventCTHHeap (h : Heap) (inAddrs : Period → Option Nat)
    (eventStartYear eventEndYear : ℚ) : Heap × (Period → Nat) × (Period → ℚ) :=
  let addrs : Period → Nat := fun p => h.length + periodIndex p
  let copies : List Indicators := periods.map (copyIndicators h inAddrs)
  let h0 := h ++ copies
  let hFinal := completeAndInferHeap h0 addrs eventStartYear eventEndYear
  (hFinal, addrs, heapScores hFinal addrs)

/-!
Concrete inputs used by counterexamples and witnesses.
-/

/-- An indicator record supplying only `gdpPerCapita: 600`. -/
def gdpOnly600 : Indicators :=
  fun n => if n = IndicatorName.gdpPerCapita then some 600 else none

/-- An indicator record supplying only `gdpPerCapita: 800`. -/
def gdpOnly800 : Indicators :=
  fun n => if n = IndicatorName.gdpPerCapita then some 800 else none

/-- Initial data where `before` supplies `gdpPerCapita: 600`, `during`
supplies `gdpPerCapita: 800`, and everything else — in particular
`prelude.gdpPerCapita` — is missing. -/
def interpolationProbeData : InitialData
  | Period.before => some gdpOnly600
  | Period.during => some gdpOnly800
  | _ => none

/-- Initial data with every phase absent. -/
def emptyInitialData : InitialData := fun _ => none

/-- Initial data where only `during` is supplied, fully specified. -/
def duringOnlyData (dur : EpochSnapshot) : InitialData :=
  fun p => if p = Period.during then some (fun n => some (dur n)) else none

/-!
Helper lemmas.
-/

lemma limits_min_le_max (n : IndicatorName) :
    (INDICATOR_LIMITS n).min ≤ (INDICATOR_LIMITS n).max := by
  cases n <;> norm_num [INDICATOR_LIMITS]

lemma min_le_applyLimits (n : IndicatorName) (v : ℚ) :
    (INDICATOR_LIMITS n).min ≤ applyLimits n v :=
  le_max_left _ _

lemma applyLimits_le_max (n : IndicatorName) (v : ℚ) :
    applyLimits n v ≤ (INDICATOR_LIMITS n).max :=
  max_le (limits_min_le_max n) (min_le_left _ _)

lemma applyLimits_eq_self (n : IndicatorName) (v : ℚ)
    (h1 : (INDICATOR_LIMITS n).min ≤ v) (h2 : v ≤ (INDICATOR_LIMITS n).max) :
    applyLimits n v = v := by
  show max (INDICATOR_LIMITS n).min (min (INDICATOR_LIMITS n).max v) = v
  rw [min_eq_right h2, max_eq_right h1]

lemma applyLimits_idem (n : IndicatorName) (v : ℚ) :
    applyLimits n (applyLimits n v) = applyLimits n v :=
  applyLimits_eq_self n _ (min_le_applyLimits n v) (applyLimits_le_max n v)

lemma computeScore_def (E_val S_val A_val P_val : ℚ) (w : Weights) :
    computeScore E_val S_val A_val P_val w =
      max 0 (min 1
        (if 0 < w.w_e + w.w_s + w.w_a + w.w_p then
          (w.w_e * E_val + w.w_s * S_val + w.w_a * A_val + w.w_p * P_val) /
            (w.w_e + w.w_s + w.w_a + w.w_p)
        else 0)) := rfl

lemma computeScore_nonneg (E_val S_val A_val P_val : ℚ) (w : Weights) :
    0 ≤ computeScore E_val S_val A_val P_val w := by
  rw [computeScore_def]
  exact le_max_left _ _

lemma computeScore_le_one (E_val S_val A_val P_val : ℚ) (w : Weights) :
    computeScore E_val S_val A_val P_val w ≤ 1 := by
  rw [computeScore_def]
  exact max_le zero_le_one (min_le_left _ _)

lemma calculateCTH_eq_computeScore (ind : Indicators) (cw : Option Weights) :
    calculateCTHFromIndicators ind cw =
      computeScore
        (dimensionAverage [normOf ind IndicatorName.gdpPerCapita,
          normOf ind IndicatorName.giniIndex,
          normOf ind IndicatorName.politicalEventsCount])
        (dimensionAverage [normOf ind IndicatorName.averageIncome,
          normOf ind IndicatorName.literacyRate])
        (dimensionAverage [normOf ind IndicatorName.lifeExpectancy,
          normOf ind IndicatorName.birthRate])
        (dimensionAverage [normOf ind IndicatorName.populationDensity,
          normOf ind IndicatorName.urbanizationRate])
        (cw.getD DEFAULT_CTH_WEIGHTS) := rfl

lemma calculateCTH_nonneg (ind : Indicators) (cw : Option Weights) :
    0 ≤ calculateCTHFromIndicators ind cw := by
  rw [calculateCTH_eq_computeScore]
  exact computeScore_nonneg _ _ _ _ _

lemma calculateCTH_le_one (ind : Indicators) (cw : Option Weights) :
    calculateCTHFromIndicators ind cw ≤ 1 := by
  rw [calculateCTH_eq_computeScore]
  exact computeScore_le_one _ _ _ _ _

lemma seedStage_indicators (td : TemporalData) (sy ey : ℚ) (p : Period) :
    (seedStage td sy ey p).indicators =
      fillMissingFromEpoch (td p).indicators
        (getEpochDataForYear (periodYear sy ey p)) := rfl

lemma scoreStage_indicators (td : TemporalData) (p : Period) :
    (scoreStage td p).indicators = (td p).indicators := rfl

lemma scoreStage_cth (td : TemporalData) (p : Period) :
    (scoreStage td p).cth =
      some (calculateCTHFromIndicators (td p).indicators none) := rfl

lemma clampStage_indicators (td : TemporalData) (p : Period) (n : IndicatorName) :
    (clampStage td p).indicators n = ((td p).indicators n).map (applyLimits n) := rfl

lemma fillMissingFromEpoch_isSome (ind : Indicators) (ep : EpochSnapshot) (n : IndicatorName) :
    (fillMissingFromEpoch ind ep n).isSome := by
  unfold fillMissingFromEpoch
  cases ind n <;> simp

lemma fillMissingFromEpoch_of_some (ind : Indicators) (ep : EpochSnapshot)
    (n : IndicatorName) (v : ℚ) (h : ind n = some v) :
    fillMissingFromEpoch ind ep n = some v := by
  unfold fillMissingFromEpoch
  rw [h]

lemma fillMissingFromEpoch_of_none (ind : Indicators) (ep : EpochSnapshot)
    (n : IndicatorName) (h : ind n = none) :
    fillMissingFromEpoch ind ep n = some (ep n) := by
  unfold fillMissingFromEpoch
  rw [h]

lemma inferIndicator_of_some (deltas : Period → ℚ) (td : TemporalData) (p : Period)
    (n : IndicatorName) (v : ℚ) (h : (td p).indicators n = some v) :
    inferIndicator deltas td p n = some v := by
  unfold inferIndicator
  rw [h]

lemma inferPeriodStep_of_allSome (deltas : Period → ℚ) (td : TemporalData) (p : Period)
    (h : ∀ n, ((td p).indicators n).isSome) :
    inferPeriodStep deltas td p = td := by
  funext q
  unfold inferPeriodStep
  by_cases hq : q = p
  · subst hq
    rw [if_pos rfl]
    have hind : (fun n => inferIndicator deltas td q n) = (td q).indicators := by
      funext n
      rcases Option.isSome_iff_exists.mp (h n) with ⟨v, hv⟩
      rw [inferIndicator_of_some deltas td q n v hv, hv]
    rw [hind]
  · rw [if_neg hq]

lemma foldl_inferPeriodStep_of_allSome (deltas : Period → ℚ) (td : TemporalData)
    (h : ∀ p n, ((td p).indicators n).isSome) :
    ∀ l : List Period, l.foldl (inferPeriodStep deltas) td = td := by
  intro l
  induction l with
  | nil => rfl
  | cons p rest ih =>
      rw [List.foldl_cons, inferPeriodStep_of_allSome deltas td p (h p)]
      exact ih

lemma inferenceStage_of_allSome (deltas : Period → ℚ) (td : TemporalData)
    (h : ∀ p n, ((td p).indicators n).isSome) :
    inferenceStage deltas td = td := by
  have hstep := foldl_inferPeriodStep_of_allSome deltas td h periods
  unfold inferenceStage
  rw [show List.range 3 = [0, 1, 2] from rfl]
  simp only [List.foldl_cons, List.foldl_nil, hstep]

lemma completeAndInfer_def (td : TemporalData) (sy ey : ℚ) :
    completeAndInferHistoricalData td sy ey =
      scoreStage (clampStage (inferenceStage
        (deltaCTHAfter (scoreStage (seedStage td sy ey)))
        (scoreStage (seedStage td sy ey)))) := rfl

lemma completeAndInfer_indicators (td : TemporalData) (sy ey : ℚ)
    (p : Period) (n : IndicatorName) :
    (completeAndInferHistoricalData td sy ey p).indicators n =
      (fillMissingFromEpoch (td p).indicators
        (getEpochDataForYear (periodYear sy ey p)) n).map (applyLimits n) := by
  have hsome : ∀ q m, ((scoreStage (seedStage td sy ey) q).indicators m).isSome := by
    intro q m
    rw [scoreStage_indicators, seedStage_indicators]
    exact fillMissingFromEpoch_isSome _ _ m
  rw [completeAndInfer_def, scoreStage_indicators,
    inferenceStage_of_allSome _ _ hsome, clampStage_indicators,
    scoreStage_indicators, seedStage_indicators]

lemma completeAndInfer_cth (td : TemporalData) (sy ey : ℚ) (p : Period) :
    (completeAndInferHistoricalData td sy ey p).cth =
      some (calculateCTHFromIndicators
        (completeAndInferHistoricalData td sy ey p).indicators none) := rfl

lemma completeAndInfer_indicators_mem (td : TemporalData) (sy ey : ℚ)
    (p : Period) (n : IndicatorName) :
    ∃ v, (completeAndInferHistoricalData td sy ey p).indicators n = some v ∧
      (INDICATOR_LIMITS n).min ≤ v ∧ v ≤ (INDICATOR_LIMITS n).max := by
  rcases Option.isSome_iff_exists.mp
      (fillMissingFromEpoch_isSome (td p).indicators
        (getEpochDataForYear (periodYear sy ey p)) n) with ⟨w, hw⟩
  refine ⟨applyLimits n w, ?_, min_le_applyLimits n w, applyLimits_le_max n w⟩
  rw [completeAndInfer_indicators, hw]
  rfl

lemma analyzeEventCTH_of_le (s e : ℚ) (d : InitialData) (hse : s ≤ e) :
    analyzeEventCTH (some s) (some e) (some d) =
      some (completeAndInferHistoricalData (initialTemporalData d) s e) := by
  simp only [analyzeEventCTH]
  rw [if_neg (not_lt.mpr hse)]

lemma readH_writeH_of_ne (h : Heap) (a i : Nat) (v : Indicators) (hne : a ≠ i) :
    readH (writeH h a v) i = readH h i := by
  unfold readH writeH
  rw [List.getD_eq_getElem?_getD, List.getD_eq_getElem?_getD,
    List.getElem?_set_ne hne]

lemma readH_append_left (h t : Heap) (i : Nat) (hlt : i < h.length) :
    readH (h ++ t) i = readH h i := by
  unfold readH
  rw [List.getD_eq_getElem?_getD, List.getD_eq_getElem?_getD,
    List.getElem?_append_left hlt]

lemma foldl_writeH_frame {α : Type} (F : Heap → α → Heap) (i : Nat)
    (hF : ∀ h a, readH (F h a) i = readH h i) :
    ∀ (l : List α) (h : Heap), readH (l.foldl F h) i = readH h i := by
  intro l
  induction l with
  | nil => intro h; rfl
  | cons a rest ih =>
      intro h
      rw [List.foldl_cons, ih (F h a), hF h a]

lemma seedStageHeap_frame (h : Heap) (addrs : Period → Nat) (sy ey : ℚ) (i : Nat)
    (hi : ∀ p, addrs p ≠ i) :
    readH (seedStageHeap h addrs sy ey) i = readH h i :=
  foldl_writeH_frame _ i
    (fun hh p => readH_writeH_of_ne hh (addrs p) i _ (hi p)) periods h

lemma inferenceStageHeap_frame (deltas : Period → ℚ) (h : Heap)
    (addrs : Period → Nat) (i : Nat) (hi : ∀ p, addrs p ≠ i) :
    readH (inferenceStageHeap deltas h addrs) i = readH h i :=
  foldl_writeH_frame _ i
    (fun hh _ =>
      foldl_writeH_frame _ i
        (fun hh2 p => readH_writeH_of_ne hh2 (addrs p) i _ (hi p)) periods hh)
    (List.range 3) h

lemma clampStageHeap_frame (h : Heap) (addrs : Period → Nat) (i : Nat)
    (hi : ∀ p, addrs p ≠ i) :
    readH (clampStageHeap h addrs) i = readH h i :=
  foldl_writeH_frame _ i
    (fun hh p => readH_writeH_of_ne hh (addrs p) i _ (hi p)) periods h

lemma completeAndInferHeap_frame (h : Heap) (addrs : Period → Nat)
    (sy ey : ℚ) (i : Nat) (hi : ∀ p, addrs p ≠ i) :
    readH (completeAndInferHeap h addrs sy ey) i = readH h i := by
  simp only [completeAndInferHeap]
  rw [clampStageHeap_frame _ addrs i hi, inferenceStageHeap_frame _ _ addrs i hi,
    seedStageHeap_frame h addrs sy ey i hi]

lemma epochScan_eq_find (l : List EpochEntry) (year : ℚ) :
    epochScan year l =
      ((l.find? (fun e => decide (e.startYear ≤ year ∧ year ≤ e.endYear))).map
        EpochEntry.indicators).getD fallbackEpochData := by
  induction l with
  | nil => rfl
  | cons e rest ih =>
      by_cases h : e.startYear ≤ year ∧ year ≤ e.endYear
      · simp [epochScan, List.find?_cons, h]
      · simp [epochScan, List.find?_cons, h, ih]

/-!
Claim theorems.
-/

/-- Claim C2 counterexample: with `min = max = 5` and the valid numeric
raw value 7, `normalizeIndicator` returns 0, not the 0.5 the claim
states. -/
theorem claim_C2_counterexample :
    normalizeIndicator (some 7) 5 5 = 0 ∧ normalizeIndicator (some 7) 5 5 ≠ 0.5 := by
  norm_num [normalizeIndicator]

/-- Claim C2 (amended): for every `min == max`, `normalize(rawValue, min,
max)` returns 0 for any valid numeric `rawValue` (degenerate-domain
guard). -/
theorem claim_C2_amended (v mn mx : ℚ) (h : mn = mx) :
    normalizeIndicator (some v) mn mx = 0 := by
  show (if mx - mn = 0 then (0:ℚ) else (max mn (min mx v) - mn) / (mx - mn)) = 0
  rw [if_pos (by rw [h, sub_self])]

/-- Witness for the amended Claim C2 at `rawValue = 7`, `min = max = 5`. -/
theorem claim_C2_amended_witness : normalizeIndicator (some 7) 5 5 = 0 :=
  claim_C2_amended 7 5 5 rfl

/-- Claim C7: for every year, `getEpochDataForYear` returns the indicator
snapshot of the first epoch-table interval containing that year, and the
hardcoded contemporary-default snapshot when no interval contains it (the
lookup is total). -/
theorem claim_C7_epoch_lookup (year : ℚ) :
    getEpochDataForYear year =
      ((EPOCH_DATA_REFERENCE.find?
          (fun e => decide (e.startYear ≤ year ∧ year ≤ e.endYear))).map
        EpochEntry.indicators).getD fallbackEpochData :=
  epochScan_eq_find EPOCH_DATA_REFERENCE year

/-- Claim C8: for `min < max`, `normalize` is monotone non-decreasing on
`[min, max]`, `normalize(min) = 0`, `normalize(max) = 1`; and for
`min = 0, max = 100`, `normalize(-50) = 0` and `normalize(150) = 1`. -/
theorem claim_C8_normalize_monotone (mn mx : ℚ) (hlt : mn < mx) :
    (∀ v1 v2, mn ≤ v1 → v1 ≤ v2 → v2 ≤ mx →
        normalizeIndicator (some v1) mn mx ≤ normalizeIndicator (some v2) mn mx) ∧
      normalizeIndicator (some mn) mn mx = 0 ∧
      normalizeIndicator (some mx) mn mx = 1 ∧
      normalizeIndicator (some (-50)) 0 100 = 0 ∧
      normalizeIndicator (some 150) 0 100 = 1 := by
  have hne : mx - mn ≠ 0 := sub_ne_zero.mpr (ne_of_gt hlt)
  have hval : ∀ v, normalizeIndicator (some v) mn mx =
      (max mn (min mx v) - mn) / (mx - mn) := by
    intro v
    show (if mx - mn = 0 then (0:ℚ) else (max mn (min mx v) - mn) / (mx - mn)) =
      (max mn (min mx v) - mn) / (mx - mn)
    rw [if_neg hne]
  refine ⟨?_, ?_, ?_, ?_, ?_⟩
  · intro v1 v2 h1 h12 h2
    rw [hval, hval]
    rw [min_eq_right (le_trans h12 h2), max_eq_right h1,
      min_eq_right h2, max_eq_right (le_trans h1 h12)]
    have hpos : 0 < mx - mn := sub_pos.mpr hlt
    gcongr
  · rw [hval, min_eq_right hlt.le, max_self, sub_self, zero_div]
  · rw [hval, min_self, max_eq_right hlt.le]
    exact div_self hne
  · norm_num [normalizeIndicator, min_def, max_def]
  · norm_num [normalizeIndicator, min_def, max_def]

/-- Witness for Claim C8 at `min = 0, max = 100`: the two endpoint
identities. -/
theorem claim_C8_normalize_monotone_witness :
    normalizeIndicator (some (0:ℚ)) 0 100 = 0 ∧
      normalizeIndicator (some (100:ℚ)) 0 100 = 1 := by
  have h := claim_C8_normalize_monotone 0 100 (by norm_num)
  exact ⟨h.2.1, h.2.2.1⟩

/-- Claim C9: `computeScore` always lands in [0,1]; with weight sum 0 it
returns 0 (the division is guarded); with positive weight sum it is the
clamped weighted mean; in particular all-zero weights give 0. -/
theorem claim_C9_computeScore_guarded (E_val S_val A_val P_val : ℚ) (w : Weights) :
    (0 ≤ computeScore E_val S_val A_val P_val w ∧
        computeScore E_val S_val A_val P_val w ≤ 1) ∧
      (w.w_e + w.w_s + w.w_a + w.w_p = 0 →
        computeScore E_val S_val A_val P_val w = 0) ∧
      (0 < w.w_e + w.w_s + w.w_a + w.w_p →
        computeScore E_val S_val A_val P_val w =
          max 0 (min 1
            ((w.w_e * E_val + w.w_s * S_val + w.w_a * A_val + w.w_p * P_val) /
              (w.w_e + w.w_s + w.w_a + w.w_p)))) ∧
      computeScore E_val S_val A_val P_val ⟨0, 0, 0, 0⟩ = 0 := by
  refine ⟨⟨computeScore_nonneg _ _ _ _ _, computeScore_le_one _ _ _ _ _⟩, ?_, ?_, ?_⟩
  · intro hsum
    rw [computeScore_def, hsum]
    norm_num
  · intro hsum
    rw [computeScore_def, if_pos hsum]
  · rw [computeScore_def]
    norm_num

/-- Witness for Claim C9: all-zero weights give score 0 via the zero
weight-sum guard. -/
theorem claim_C9_computeScore_guarded_witness :
    computeScore 1 0 0 0 ⟨0, 0, 0, 0⟩ = 0 :=
  (claim_C9_computeScore_guarded 1 0 0 0 ⟨0, 0, 0, 0⟩).2.1 (by norm_num)

/-- Claim C4: `analyzeEventCTH` returns the null sentinel exactly when the
top-level input is structurally invalid — a non-numeric year, start year
greater than end year, or a non-record initial-data argument — and for
every structurally valid input it returns a completed result regardless of
per-indicator gaps. -/
theorem claim_C4_error_surface (sy ey : Option ℚ) (d : Option InitialData) :
    analyzeEventCTH sy ey d = none ↔
      sy = none ∨ ey = none ∨
        (∃ s e, sy = some s ∧ ey = some e ∧ e < s) ∨ d = none := by
  rcases sy with _ | s
  · simp [analyzeEventCTH]
  · rcases ey with _ | e
    · simp [analyzeEventCTH]
    · rcases d with _ | dd
      · simp [analyzeEventCTH]
      · by_cases hlt : e < s
        · simp [analyzeEventCTH, hlt]
        · simp [analyzeEventCTH, hlt]

/-- Claim C10: the pipeline mutates only the five freshly allocated copies
of the caller's indicator records — every pre-existing heap cell, in
particular every record of `initialHistoricalData`, reads the same after
`analyzeEventCTHHeap` as before. -/
theorem claim_C10_frame (h : Heap) (inAddrs : Period → Option Nat) (sy ey : ℚ)
    (i : Nat) (hi : i < h.length) :
    readH (analyzeEventCTHHeap h inAddrs sy ey).1 i = readH h i := by
  simp only [analyzeEventCTHHeap]
  rw [completeAndInferHeap_frame _ _ sy ey i (fun p => by omega)]
  exact readH_append_left h _ i hi

/-- Witness for Claim C10: a one-cell heap whose cell is the caller's
`during` record is unchanged by a run. -/
theorem claim_C10_frame_witness :
    readH (analyzeEventCTHHeap [fun _ => some 1] (fun _ => some 0) 1789 1799).1 0 =
      readH [fun _ => some 1] 0 :=
  claim_C10_frame [fun _ => some 1] (fun _ => some 0) 1789 1799 0 (by norm_num)

/-- Claim C1 (code bug): with `before` supplying `gdpPerCapita: 600`,
`during` supplying `gdpPerCapita: 800`, and `prelude` missing it, the
completed `prelude` value is the Stage-A epoch seed 1500 (the
`earlyModern` snapshot for representative year 1788), not the interpolated
mean 700 the claim requires: Step 1 seeds every missing slot, so Step 3's
still-missing check never fires and the interpolation is dead code. -/
theorem claim_C1_seed_retained :
    ∃ td, analyzeEventCTH (some 1789) (some 1799) (some interpolationProbeData) = some td ∧
      (td Period.prelude).indicators IndicatorName.gdpPerCapita = some 1500 ∧
      ((600:ℚ) + 800) / 2 ≠ 1500 := by
  refine ⟨_, analyzeEventCTH_of_le 1789 1799 interpolationProbeData (by norm_num), ?_,
    by norm_num⟩
  rw [completeAndInfer_indicators,
    fillMissingFromEpoch_of_none _ _ IndicatorName.gdpPerCapita rfl,
    show periodYear 1789 1799 Period.prelude = 1788 from by norm_num [periodYear],
    show getEpochDataForYear 1788 = earlyModernData from by
      norm_num [getEpochDataForYear, EPOCH_DATA_REFERENCE, epochScan]]
  norm_num [earlyModernData, applyLimits, INDICATOR_LIMITS, min_def, max_def]

/-- Claim C3: for every accepted input (numeric years with start not after
end and a record-shaped initial-data argument), every score of the
returned structure lies in [0,1] and every indicator value lies within its
declared domain. -/
theorem claim_C3_clamping_invariant (s e : ℚ) (d : InitialData) (td : TemporalData)
    (hse : s ≤ e) (h : analyzeEventCTH (some s) (some e) (some d) = some td) :
    ∀ p, (∃ c, (td p).cth = some c ∧ 0 ≤ c ∧ c ≤ 1) ∧
      ∀ n, ∃ v, (td p).indicators n = some v ∧
        (INDICATOR_LIMITS n).min ≤ v ∧ v ≤ (INDICATOR_LIMITS n).max := by
  have htd : td = completeAndInferHistoricalData (initialTemporalData d) s e := by
    have h2 := analyzeEventCTH_of_le s e d hse
    rw [h] at h2
    exact Option.some.inj h2
  subst htd
  intro p
  exact ⟨⟨_, completeAndInfer_cth _ s e p, calculateCTH_nonneg _ _, calculateCTH_le_one _ _⟩,
    fun n => completeAndInfer_indicators_mem _ s e p n⟩

/-- Witness for Claim C3 at `start = end = 2000` with no caller data: the
`before` score is present and in [0,1]. -/
theorem claim_C3_clamping_invariant_witness :
    ∃ c, ((completeAndInferHistoricalData (initialTemporalData emptyInitialData) 2000 2000)
        Period.before).cth = some c ∧ 0 ≤ c ∧ c ≤ 1 :=
  (claim_C3_clamping_invariant 2000 2000 emptyInitialData
    (completeAndInferHistoricalData (initialTemporalData emptyInitialData) 2000 2000)
    (by norm_num)
    (analyzeEventCTH_of_le 2000 2000 emptyInitialData (by norm_num))
    Period.before).1

/-- Claim C5: the Completion Pipeline is idempotent — feeding the
completed structure's indicator records back in with the same years
reproduces exactly the same scores and indicator values (an exact fixed
point in the rational model). -/
theorem claim_C5_idempotence (s e : ℚ) (d : InitialData) (td : TemporalData)
    (hse : s ≤ e) (h : analyzeEventCTH (some s) (some e) (some d) = some td) :
    analyzeEventCTH (some s) (some e) (some (fun p => some ((td p).indicators))) = some td := by
  have htd : td = completeAndInferHistoricalData (initialTemporalData d) s e := by
    have h2 := analyzeEventCTH_of_le s e d hse
    rw [h] at h2
    exact Option.some.inj h2
  have hmem : ∀ p n, ∃ v, (td p).indicators n = some v ∧
      (INDICATOR_LIMITS n).min ≤ v ∧ v ≤ (INDICATOR_LIMITS n).max := by
    intro p n
    rw [htd]
    exact completeAndInfer_indicators_mem _ s e p n
  have hcth : ∀ p, (td p).cth = some (calculateCTHFromIndicators (td p).indicators none) := by
    intro p
    rw [htd]
    exact completeAndInfer_cth _ s e p
  rw [analyzeEventCTH_of_le _ _ _ hse]
  congr 1
  funext p
  have hind : (completeAndInferHistoricalData
      (initialTemporalData (fun q => some ((td q).indicators))) s e p).indicators =
      (td p).indicators := by
    funext n
    obtain ⟨v, hv, hv1, hv2⟩ := hmem p n
    rw [completeAndInfer_indicators,
      show (initialTemporalData (fun q => some ((td q).indicators)) p).indicators =
        (td p).indicators from rfl,
      fillMissingFromEpoch_of_some _ _ n v hv, hv]
    show some (applyLimits n v) = some v
    rw [applyLimits_eq_self n v hv1 hv2]
  exact PhaseData.ext hind (by rw [completeAndInfer_cth, hind, hcth p])

/-- Witness for Claim C5: rerunning the pipeline on its own output for the
empty input at years 2000-2000 returns that output unchanged. -/
theorem claim_C5_idempotence_witness :
    analyzeEventCTH (some 2000) (some 2000)
      (some (fun p => some
        (((completeAndInferHistoricalData (initialTemporalData emptyInitialData) 2000 2000) p).indicators))) =
      some (completeAndInferHistoricalData (initialTemporalData emptyInitialData) 2000 2000) :=
  claim_C5_idempotence 2000 2000 emptyInitialData _ (by norm_num)
    (analyzeEventCTH_of_le 2000 2000 emptyInitialData (by norm_num))

/-- Claim C6: for the 1789-1799 scenario with only `during` fully
specified, the completed `before` record equals the epoch snapshot for
1777 (`earlyModern`), the completed `after` record equals the snapshot for
1811 (`industrialRevolution`), every phase score is present and in [0,1],
and the `during` score is computed purely from the (clamped)
caller-supplied data. -/
theorem claim_C6_seed_scenario (dur : EpochSnapshot) (td : TemporalData)
    (h : analyzeEventCTH (some 1789) (some 1799) (some (duringOnlyData dur)) = some td) :
    (∀ n, (td Period.before).indicators n = some (earlyModernData n)) ∧
      (∀ n, (td Period.after).indicators n = some (industrialRevolutionData n)) ∧
      (∀ p, ∃ c, (td p).cth = some c ∧ 0 ≤ c ∧ c ≤ 1) ∧
      (td Period.during).cth =
        some (calculateCTHFromIndicators (fun n => some (applyLimits n (dur n))) none) := by
  have htd : td = completeAndInferHistoricalData
      (initialTemporalData (duringOnlyData dur)) 1789 1799 := by
    have h2 := analyzeEventCTH_of_le 1789 1799 (duringOnlyData dur) (by norm_num)
    rw [h] at h2
    exact Option.some.inj h2
  subst htd
  refine ⟨?_, ?_, ?_, ?_⟩
  · intro n
    rw [completeAndInfer_indicators, fillMissingFromEpoch_of_none _ _ n rfl,
      show periodYear 1789 1799 Period.before = 1777 from by norm_num [periodYear],
      show getEpochDataForYear 1777 = earlyModernData from by
        norm_num [getEpochDataForYear, EPOCH_DATA_REFERENCE, epochScan]]
    cases n <;>
      norm_num [earlyModernData, applyLimits, INDICATOR_LIMITS, min_def, max_def]
  · intro n
    rw [completeAndInfer_indicators, fillMissingFromEpoch_of_none _ _ n rfl,
      show periodYear 1789 1799 Period.after = 1811 from by norm_num [periodYear],
      show getEpochDataForYear 1811 = industrialRevolutionData from by
        norm_num [getEpochDataForYear, EPOCH_DATA_REFERENCE, epochScan]]
    cases n <;>
      norm_num [industrialRevolutionData, applyLimits, INDICATOR_LIMITS, min_def, max_def]
  · intro p
    exact ⟨_, completeAndInfer_cth _ _ _ p, calculateCTH_nonneg _ _, calculateCTH_le_one _ _⟩
  · have hind : (completeAndInferHistoricalData
        (initialTemporalData (duringOnlyData dur)) 1789 1799 Period.during).indicators =
        (fun n => some (applyLimits n (dur n))) := by
      funext n
      rw [completeAndInfer_indicators, fillMissingFromEpoch_of_some _ _ n (dur n) rfl]
      rfl
    rw [completeAndInfer_cth, hind]

/-- Witness for Claim C6 with every `during` indicator supplied as 1000:
the completed `before` gdpPerCapita equals the `earlyModern` snapshot
value. -/
theorem claim_C6_seed_scenario_witness :
    ((completeAndInferHistoricalData
        (initialTemporalData (duringOnlyData (fun _ => 1000))) 1789 1799)
      Period.before).indicators IndicatorName.gdpPerCapita =
      some (earlyModernData IndicatorName.gdpPerCapita) :=
  (claim_C6_seed_scenario (fun _ => 1000) _
    (analyzeEventCTH_of_le 1789 1799 (duringOnlyData (fun _ => 1000)) (by norm_num))).1
    IndicatorName.gdpPerCapita
